import Mathlib

/-!
# Verification of the room-coordination core (`app/model.py`)

A shallow embedding of the game server's room lifecycle code. The database
state (tables `user` and `rooms`) is modelled as explicit record lists, SQL
row updates as list maps, and each Python function of `app/model.py` as a
Lean function of the same name acting on that state. Python ints are `Int`
(counters may go negative), timestamps are `Int` seconds, nullable columns
are `Option`, and exceptions are `Except Err`.
-/

namespace GameServer

/-- Exceptions that the Python operations can raise. `typeError` models the
`TypeError` CPython raises when the bare `None` returned by
`_get_user_by_token` on a lookup miss is subscripted (`[0]`) or
tuple-unpacked by the caller; `noResultFound` models
`sqlalchemy.exc.NoResultFound` from `result.one()` on a missing row;
`indexError` models `users[0]` on an empty list; `invalidToken` models the
`InvalidToken` exception class declared in the source. -/
inductive Err where
  | typeError
  | invalidToken
  | noResultFound
  | indexError
deriving DecidableEq, Repr

/-- `SafeUser`: token-free user view built by `_get_user_by_token`. -/
structure SafeUser where
  id : Nat
  name : String
  leader_card_id : Int
deriving DecidableEq, Repr

/-- One row of the `user` table: identity plus the nullable current-room
column `room_id`. -/
structure UserRow where
  id : Nat
  name : String
  token : String
  leader_card_id : Int
  room_id : Option Nat
deriving DecidableEq, Repr

/-- One entry of a room's JSON `users` blob. `judge_count_list` and `score`
are absent keys until `room_end` stores them, hence `Option`. -/
structure Member where
  id : Nat
  name : String
  leader_card_id : Int
  live_dif : Int
  judge_count_list : Option (List Int)
  score : Option Int
deriving DecidableEq, Repr

/-- One row of the `rooms` table. `status` holds the raw integer of
`WaitRoomStatus` (1 = Waiting, 2 = LiveStart, 3 = Dissolution); `time_begin`
is NULL until `_room_start` sets it. -/
structure Room where
  room_id : Nat
  live_id : Nat
  hst_id : Nat
  status : Int
  j_usr_cnt : Int
  m_usr_cnt : Int
  users : List Member
  time_made : Int
  time_begin : Option Int
  r_res_cnt : Int
deriving DecidableEq, Repr

/-- The whole database state. -/
structure DB where
  users : List UserRow
  rooms : List Room
deriving DecidableEq, Repr

/-- `LiveDifficulty` enum of the source. -/
inductive LiveDifficulty where
  | normal
  | hard
deriving DecidableEq, Repr

/-- `.value` of the `LiveDifficulty` enum. -/
def LiveDifficulty.val : LiveDifficulty → Int
  | .normal => 1
  | .hard => 2

/-- `JoinRoomResult` enum of the source. -/
inductive JoinRoomResult where
  | Ok
  | RoomFull
  | Disbanded
  | OtherError
deriving DecidableEq, Repr

/-- Member view returned by `_room_wait` (`RoomUser` in the source);
`select_difficulty` keeps the raw stored integer. -/
structure RoomUser where
  user_id : Nat
  name : String
  leader_card_id : Int
  select_difficulty : Int
  is_me : Bool
  is_host : Bool
deriving DecidableEq, Repr

/-- Result view returned by `_room_result` (`ResultUser` in the source). -/
structure ResultUser where
  user_id : Nat
  judge_count_list : List Int
  score : Int
deriving DecidableEq, Repr

/-- `timedelta(minutes=5)` in seconds. -/
def staleLimit : Int := 300

/-- `SELECT ... FROM rooms WHERE room_id = :room_id`: `room_id` is the
primary key, so the first match is the row. -/
def findRoom (db : DB) (rid : Nat) : Option Room :=
  db.rooms.find? (fun r => r.room_id == rid)

/-- `UPDATE rooms SET ... WHERE room_id = :room_id`. -/
def updateRoom (db : DB) (rid : Nat) (f : Room → Room) : DB :=
  { db with rooms := db.rooms.map (fun r => if r.room_id == rid then f r else r) }

/-- `DELETE FROM rooms WHERE room_id = :room_id` (`_room_remove`). -/
def room_remove (db : DB) (rid : Nat) : DB :=
  { db with rooms := db.rooms.filter (fun r => !(r.room_id == rid)) }

/-- `UPDATE user SET room_id = :room_id WHERE id = :user_id`. -/
def setUserRoom (db : DB) (uid : Nat) (rid : Nat) : DB :=
  { db with users := db.users.map (fun x => if x.id == uid then { x with room_id := some rid } else x) }

/-- `_get_user_by_token`: returns `none` (the bare Python `None`) when no
user row matches the token, else the `(SafeUser, row.room_id)` pair. -/
def get_user_by_token (db : DB) (token : String) : Option (SafeUser × Option Nat) :=
  match db.users.find? (fun u => u.token == token) with
  | none => none
  | some u => some (⟨u.id, u.name, u.leader_card_id⟩, u.room_id)

/-- `result.lastrowid` of the rooms INSERT: the AUTO_INCREMENT key, fresh
with respect to every existing room. -/
def freshRoomId (db : DB) : Nat :=
  (db.rooms.map Room.room_id).foldr max 0 + 1

/-- `_create_room` plus the columns the INSERT leaves to schema defaults.
Modelled from the spec for those defaults (the schema/DDL file is not part
of the source under verification): a new room starts Waiting (status 1)
with the creator as sole member and host, occupancy 1, result count 0, no
play-start time, and capacity `maxUserCount`. -/
def create_room_db (db : DB) (now : Int) (maxUserCount : Int) (u : SafeUser)
    (live_id : Nat) (live_dif : LiveDifficulty) : DB × Nat :=
  let rid := freshRoomId db
  let member : Member := ⟨u.id, u.name, u.leader_card_id, live_dif.val, none, none⟩
  let room : Room :=
    { room_id := rid, live_id := live_id, hst_id := u.id, status := 1,
      j_usr_cnt := 1, m_usr_cnt := maxUserCount, users := [member],
      time_made := now, time_begin := none, r_res_cnt := 0 }
  let db1 : DB := { db with rooms := db.rooms ++ [room] }
  (setUserRoom db1 u.id rid, rid)

/-- `create_room` (public wrapper). In the source a token miss makes
`_get_user_by_token(conn, token)[0]` subscript `None`, raising `TypeError`
before the `InvalidToken` guard can fire. -/
def create_room (db : DB) (now : Int) (maxUserCount : Int) (token : String)
    (live_id : Nat) (live_dif : LiveDifficulty) : Except Err (DB × Nat) :=
  match get_user_by_token db token with
  | none => Except.error Err.typeError
  | some (u, _) => Except.ok (create_room_db db now maxUserCount u live_id live_dif)

/-- The `for i, User in enumerate(users): if User["id"] == user.id:
users.pop(i); j_usr_cnt -= 1` loop of `_room_join`, which pops from the
list being iterated. In CPython, after `pop(i)` the iterator's next index
is `i + 1` of the shrunk list, so the element that shifted into slot `i`
is kept without being examined — `acc` holds the slots already passed. -/
def scanPopAux (uid : Nat) : List Member → List Member → Int → List Member × Int
  | acc, [], cnt => (acc, cnt)
  | acc, m :: rest, cnt =>
    if m.id == uid then
      match rest with
      | [] => (acc, cnt - 1)
      | m2 :: rest2 => scanPopAux uid (acc ++ [m2]) rest2 (cnt - 1)
    else
      scanPopAux uid (acc ++ [m]) rest cnt

/-- Entry point of the pop loop: start at index 0 with nothing passed. -/
def scanPop (uid : Nat) (l : List Member) (cnt : Int) : List Member × Int :=
  scanPopAux uid [] l cnt

/-- Tail of `_room_join` common to both the rejoin branch and the fresh-join
branch: append the caller's fresh entry (no result fields), write the roster
and counter back, point the caller's `user.room_id` at the room, return Ok. -/
def joinFinish (db : DB) (u : SafeUser) (room_id : Nat) (live_dif : LiveDifficulty)
    (users_cnt : List Member × Int) : DB × JoinRoomResult :=
  let users2 := users_cnt.1 ++ [⟨u.id, u.name, u.leader_card_id, live_dif.val, none, none⟩]
  let db1 := updateRoom db room_id (fun r => { r with j_usr_cnt := users_cnt.2, users := users2 })
  (setUserRoom db1 u.id room_id, JoinRoomResult.Ok)

/-- `_room_join`. The rejoin branch (`room_id == old_room_id`) runs the pop
loop and skips the full/disbanded/status checks; otherwise the checks run
in source order on the row as read. -/
def room_join_db (db : DB) (u : SafeUser) (room_id : Nat) (old_room_id : Option Nat)
    (live_dif : LiveDifficulty) : DB × JoinRoomResult :=
  match findRoom db room_id with
  | none => (db, JoinRoomResult.OtherError)
  | some row =>
    if old_room_id = some room_id then
      joinFinish db u room_id live_dif (scanPop u.id row.users (row.j_usr_cnt + 1))
    else if row.j_usr_cnt = row.m_usr_cnt then
      (db, JoinRoomResult.RoomFull)
    else if row.status = 3 then
      (db, JoinRoomResult.Disbanded)
    else if row.status ≠ 1 then
      (db, JoinRoomResult.OtherError)
    else
      joinFinish db u room_id live_dif (row.users, row.j_usr_cnt + 1)

/-- `room_join` (public wrapper). A token miss makes
`user, old_room_id = _get_user_by_token(conn, token)` unpack `None`,
raising `TypeError` before the `InvalidToken` guard can fire. -/
def room_join (db : DB) (token : String) (room_id : Nat)
    (live_dif : LiveDifficulty) : Except Err (DB × JoinRoomResult) :=
  match get_user_by_token db token with
  | none => Except.error Err.typeError
  | some (u, old_room_id) => Except.ok (room_join_db db u room_id old_room_id live_dif)

/-- `_room_start`: `UPDATE rooms SET status = 2, time_begin = now WHERE
room_id = :room_id AND hst_id = :hst_id` — unconditional on the current
status, gated only on the host id matching. -/
def room_start_db (db : DB) (now : Int) (user_id : Nat) (room_id : Nat) : DB :=
  { db with rooms := db.rooms.map (fun r =>
      if r.room_id == room_id && r.hst_id == user_id then
        { r with status := 2, time_begin := some now }
      else r) }

/-- `room_start` (public wrapper); `TypeError` on token miss as above. -/
def room_start (db : DB) (now : Int) (token : String) (room_id : Nat) : Except Err DB :=
  match get_user_by_token db token with
  | none => Except.error Err.typeError
  | some (u, _) => Except.ok (room_start_db db now u.id room_id)

/-- `_room_wait`: missing room gives `(Dissolution, [])`; a stale room
(`now - time_made >= 5 min`) force-triggers `_room_start` with the room's
own host id, with no check of the current status; the response is built
from the row as read before that side effect. -/
def room_wait_db (db : DB) (now : Int) (u : SafeUser) (room_id : Nat) :
    DB × Int × List RoomUser :=
  match findRoom db room_id with
  | none => (db, 3, [])
  | some row =>
    let db1 := if now - row.time_made ≥ staleLimit then room_start_db db now row.hst_id room_id else db
    (db1, row.status,
      row.users.map (fun m =>
        ⟨m.id, m.name, m.leader_card_id, m.live_dif, m.id == u.id, m.id == row.hst_id⟩))

/-- `room_wait` (public wrapper); `TypeError` on token miss as above. -/
def room_wait (db : DB) (now : Int) (token : String) (room_id : Nat) :
    Except Err (DB × Int × List RoomUser) :=
  match get_user_by_token db token with
  | none => Except.error Err.typeError
  | some (u, _) => Except.ok (room_wait_db db now u room_id)

/-- `_room_end`: `result.one()` raises on a missing room; the loop stores
the result fields into every entry matching the caller's id and increments
`r_res_cnt` once per match (with no check that a result was already
stored); if the new count equals the occupancy as read, status moves to 3. -/
def room_end_db (db : DB) (u : SafeUser) (room_id : Nat)
    (judge_count_list : List Int) (score : Int) : Except Err DB :=
  match findRoom db room_id with
  | none => Except.error Err.noResultFound
  | some row =>
    let users2 := row.users.map (fun m =>
      if m.id == u.id then { m with judge_count_list := some judge_count_list, score := some score } else m)
    let r_res_cnt : Int := row.r_res_cnt + (row.users.countP (fun m => m.id == u.id) : Nat)
    let db1 := updateRoom db room_id (fun r => { r with users := users2, r_res_cnt := r_res_cnt })
    let db2 := if r_res_cnt = row.j_usr_cnt then updateRoom db1 room_id (fun r => { r with status := 3 }) else db1
    Except.ok db2

/-- `room_end` (public wrapper); `TypeError` on token miss as above. -/
def room_end (db : DB) (token : String) (room_id : Nat)
    (judge_count_list : List Int) (score : Int) : Except Err DB :=
  match get_user_by_token db token with
  | none => Except.error Err.typeError
  | some (u, _) => room_end_db db u room_id judge_count_list score

/-- `_room_result`: `result.one()` raises on a missing room; `now -
row.time_begin` raises `TypeError` when `time_begin` is still NULL; after
the 5-minute timeout the count is treated as full; below occupancy the
answer is `[]`, otherwise one entry per roster member with `[-1]*5` and
`-1` standing in for absent result fields. -/
def room_result_db (db : DB) (now : Int) (room_id : Nat) : Except Err (List ResultUser) :=
  match findRoom db room_id with
  | none => Except.error Err.noResultFound
  | some row =>
    match row.time_begin with
    | none => Except.error Err.typeError
    | some tb =>
      let r_res_cnt := if now - tb ≥ staleLimit then row.j_usr_cnt else row.r_res_cnt
      if r_res_cnt < row.j_usr_cnt then
        Except.ok []
      else
        Except.ok (row.users.map (fun m =>
          ⟨m.id, m.judge_count_list.getD [-1, -1, -1, -1, -1], m.score.getD (-1)⟩))

/-- `room_result` (public wrapper, no token). -/
def room_result (db : DB) (now : Int) (room_id : Nat) : Except Err (List ResultUser) :=
  room_result_db db now room_id

/-- The member-scan loop of `_room_leave`: find the caller's first entry
(the loop breaks at the first match); an entry that already holds a score
is kept and the result count is decremented instead, otherwise the entry
is popped. `none` means `is_room_mem` stayed false. The second component
is the delta applied to `r_res_cnt`. -/
def leaveScan (uid : Nat) : List Member → Option (List Member × Int)
  | [] => none
  | m :: rest =>
    if m.id == uid then
      if m.score.isSome then some (m :: rest, -1) else some (rest, 0)
    else
      match leaveScan uid rest with
      | none => none
      | some (rest2, d) => some (m :: rest2, d)

/-- `_room_leave`: `result.one()` raises on a missing room; the decremented
occupancy is checked against 0 (deleting the room) before any membership
check; a non-member scan is a no-op; if the caller held host the new host
is `users[0]` of the roster after the scan. -/
def room_leave_db (db : DB) (u : SafeUser) (room_id : Nat) : Except Err DB :=
  match findRoom db room_id with
  | none => Except.error Err.noResultFound
  | some row =>
    let j_usr_cnt := row.j_usr_cnt - 1
    if j_usr_cnt = 0 then
      Except.ok (room_remove db room_id)
    else
      match leaveScan u.id row.users with
      | none => Except.ok db
      | some (users2, d) =>
        let r_res_cnt := row.r_res_cnt + d
        let hst2 : Except Err Nat :=
          if row.hst_id = u.id then
            match users2.head? with
            | none => Except.error Err.indexError
            | some m0 => Except.ok m0.id
          else Except.ok row.hst_id
        match hst2 with
        | Except.error e => Except.error e
        | Except.ok h2 =>
          Except.ok (updateRoom db room_id (fun r =>
            { r with j_usr_cnt := j_usr_cnt, users := users2, hst_id := h2, r_res_cnt := r_res_cnt }))

/-- `room_leave` (public wrapper); `TypeError` on token miss as above. -/
def room_leave (db : DB) (token : String) (room_id : Nat) : Except Err DB :=
  match get_user_by_token db token with
  | none => Except.error Err.typeError
  | some (u, _) => room_leave_db db u room_id

/-! ## Concrete database fixtures

Small reachable states used to evaluate the operations at specific inputs.
Each group of fixtures belongs to one verification scenario. -/

def tokC1 : String := "t1"
def userC1 : UserRow := ⟨1, "a", tokC1, 10, some 1⟩
def memberC1 : Member := ⟨1, "a", 10, 1, some [9, 9, 9, 9, 9], some 50⟩
/-- A fully reported room: status Dissolution (3), created at time 0. -/
def roomC1 : Room := ⟨1, 5, 1, 3, 1, 4, [memberC1], 0, some 10, 1⟩
def dbC1 : DB := ⟨[userC1], [roomC1]⟩

def tokC2 : String := "t2"
def userC2 : UserRow := ⟨1, "a", tokC2, 10, some 1⟩
def memberC2 : Member := ⟨1, "a", 10, 1, none, none⟩
/-- A playing room with one member and no result yet. -/
def roomC2 : Room := ⟨1, 5, 1, 2, 1, 4, [memberC2], 0, some 10, 0⟩
def dbC2 : DB := ⟨[userC2], [roomC2]⟩

def tokC3a : String := "t3a"
def tokC3b : String := "t3b"
def userC3a : UserRow := ⟨1, "a", tokC3a, 10, some 1⟩
/-- A registered user who is not a member of any room. -/
def userC3b : UserRow := ⟨2, "b", tokC3b, 20, none⟩
def memberC3 : Member := ⟨1, "a", 10, 1, none, none⟩
/-- A waiting room whose sole member is user 1. -/
def roomC3 : Room := ⟨1, 5, 1, 1, 1, 4, [memberC3], 0, none, 0⟩
def dbC3 : DB := ⟨[userC3a, userC3b], [roomC3]⟩

def tokC4 : String := "t4"
def userC4a : UserRow := ⟨1, "a", tokC4, 10, some 1⟩
def userC4b : UserRow := ⟨2, "b", "t4b", 20, some 1⟩
/-- User 1's roster entry, first in order, with a submitted result. -/
def memberC4a : Member := ⟨1, "a", 10, 1, some [9, 9, 9, 9, 9], some 50⟩
def memberC4b : Member := ⟨2, "b", 20, 2, none, none⟩
def roomC4 : Room := ⟨1, 5, 1, 1, 2, 4, [memberC4a, memberC4b], 0, none, 1⟩
def dbC4 : DB := ⟨[userC4a, userC4b], [roomC4]⟩
def safeC4 : SafeUser := ⟨1, "a", 10⟩

def tokC5 : String := "t5"
def userC5a : UserRow := ⟨1, "a", tokC5, 10, some 1⟩
def userC5b : UserRow := ⟨2, "b", "t5b", 20, some 1⟩
/-- The host's roster entry, first in order, with a submitted result. -/
def memberC5a : Member := ⟨1, "a", 10, 1, some [9, 9, 9, 9, 9], some 50⟩
def memberC5b : Member := ⟨2, "b", 20, 2, none, none⟩
def roomC5 : Room := ⟨1, 5, 1, 2, 2, 4, [memberC5a, memberC5b], 0, some 0, 1⟩
def dbC5 : DB := ⟨[userC5a, userC5b], [roomC5]⟩
/-- Host entry without a submitted result, for the amended statement. -/
def memberC5c : Member := ⟨1, "a", 10, 1, none, none⟩
def roomC5w : Room := ⟨1, 5, 1, 1, 2, 4, [memberC5c, memberC5b], 0, none, 0⟩
def dbC5w : DB := ⟨[userC5a, userC5b], [roomC5w]⟩
def safeC5 : SafeUser := ⟨1, "a", 10⟩

def tokC6 : String := "t6"
def userC6a : UserRow := ⟨1, "a", tokC6, 10, some 1⟩
def userC6b : UserRow := ⟨2, "b", "t6b", 20, some 1⟩
def memberC6a : Member := ⟨1, "a", 10, 1, none, none⟩
def memberC6b : Member := ⟨2, "b", 20, 2, none, none⟩
/-- A full room: occupancy 2 equals capacity 2. -/
def roomC6 : Room := ⟨1, 5, 1, 1, 2, 2, [memberC6a, memberC6b], 0, none, 0⟩
def dbC6 : DB := ⟨[userC6a, userC6b], [roomC6]⟩
/-- A caller from outside the room (current-room reference is NULL). -/
def safeC6c : SafeUser := ⟨3, "c", 30⟩

def memberC7a : Member := ⟨1, "a", 10, 1, some [9, 9, 9, 9, 9], some 50⟩
def memberC7b : Member := ⟨2, "b", 20, 2, none, none⟩
/-- A playing room with play started at time 0, one of two results in. -/
def roomC7 : Room := ⟨1, 5, 1, 2, 2, 4, [memberC7a, memberC7b], 0, some 0, 1⟩
def dbC7 : DB := ⟨[], [roomC7]⟩

def tokC8 : String := "zz"
def userC8 : UserRow := ⟨1, "a", "t8", 10, none⟩
def dbC8 : DB := ⟨[userC8], []⟩

def tokC9 : String := "t9"
def userC9 : UserRow := ⟨3, "c", tokC9, 30, none⟩
def dbC9 : DB := ⟨[userC9], []⟩
def safeC9 : SafeUser := ⟨3, "c", 30⟩

def tokC10 : String := "t10b"
def userC10a : UserRow := ⟨1, "a", "t10", 10, some 1⟩
def userC10b : UserRow := ⟨2, "b", tokC10, 20, some 1⟩
def memberC10a : Member := ⟨1, "a", 10, 1, none, none⟩
def memberC10b : Member := ⟨2, "b", 20, 2, none, none⟩
def roomC10 : Room := ⟨1, 5, 1, 1, 2, 4, [memberC10a, memberC10b], 0, none, 0⟩
def dbC10 : DB := ⟨[userC10a, userC10b], [roomC10]⟩
/-- The state after user 2 leaves `roomC10`: their entry is removed, the
occupancy drops to 1, and — the point of the scenario — user 2's row in the
user table still says `room_id = some 1`. -/
def db2C10 : DB := ⟨[userC10a, userC10b], [⟨1, 5, 1, 1, 1, 4, [memberC10a], 0, none, 0⟩]⟩
def safeC10b : SafeUser := ⟨2, "b", 20⟩
/-- A room whose sole member is user 2, so user 2's leave deletes it. -/
def roomC10s : Room := ⟨1, 5, 2, 1, 1, 4, [memberC10b], 0, none, 0⟩
def dbC10s : DB := ⟨[userC10a, userC10b], [roomC10s]⟩
/-- The state after the sole member leaves `roomC10s`: the room is deleted
and — the point of the scenario — user 2's row still says `room_id = some 1`. -/
def db2C10s : DB := ⟨[userC10a, userC10b], []⟩

/-! ## Helper lemmas about the row-update and roster-scan primitives -/

/-- Updating a room under a field map that keeps `room_id` commutes with the
primary-key lookup. -/
theorem findRoom_updateRoom (db : DB) (rid : Nat) (f : Room → Room)
    (hf : ∀ r, (f r).room_id = r.room_id) :
    findRoom (updateRoom db rid f) rid = (findRoom db rid).map f := by
  unfold findRoom updateRoom
  rw [List.find?_map]
  have hp : ((fun r : Room => r.room_id == rid) ∘ fun r => if r.room_id == rid then f r else r)
      = fun r : Room => r.room_id == rid := by
    funext r
    by_cases hr : r.room_id = rid
    · simp [hr, hf]
    · simp [hr]
  rw [hp]
  cases h : db.rooms.find? (fun r : Room => r.room_id == rid) with
  | none => rfl
  | some row =>
    have hrow := List.find?_some h
    simp only [beq_iff_eq] at hrow
    simp [hrow]

/-- Pointing a user's `room_id` at a room does not change the rooms table. -/
theorem findRoom_setUserRoom (db : DB) (uid rid rid2 : Nat) :
    findRoom (setUserRoom db uid rid) rid2 = findRoom db rid2 := rfl

/-- One non-matching step of the pop loop. -/
theorem scanPopAux_cons_of_ne (uid : Nat) (acc : List Member) (m : Member)
    (rest : List Member) (cnt : Int) (h : (m.id == uid) = false) :
    scanPopAux uid acc (m :: rest) cnt = scanPopAux uid (acc ++ [m]) rest cnt := by
  cases rest with
  | nil => rw [scanPopAux.eq_2]; simp [h]
  | cons m2 rest2 => rw [scanPopAux.eq_3]; simp [h]

/-- The pop loop leaves a roster without any entry of the popped id intact. -/
theorem scanPopAux_no_match (uid : Nat) (l acc : List Member) (cnt : Int)
    (h : ∀ m ∈ l, (m.id == uid) = false) :
    scanPopAux uid acc l cnt = (acc ++ l, cnt) := by
  induction l generalizing acc with
  | nil => simp [scanPopAux]
  | cons m rest ih =>
    rw [scanPopAux_cons_of_ne uid acc m rest cnt (h m (List.mem_cons_self ..))]
    rw [ih (acc ++ [m]) (fun x hx => h x (List.mem_cons_of_mem _ hx))]
    simp

/-- On a roster holding exactly one entry of the caller's id, the pop loop
removes that entry and undoes one increment of the occupancy counter. -/
theorem scanPop_unique (uid : Nat) (l1 l2 : List Member) (m : Member) (cnt : Int)
    (hm : (m.id == uid) = true)
    (h1 : ∀ x ∈ l1, (x.id == uid) = false)
    (h2 : ∀ x ∈ l2, (x.id == uid) = false) :
    scanPop uid (l1 ++ m :: l2) cnt = (l1 ++ l2, cnt - 1) := by
  suffices haux : ∀ acc, scanPopAux uid acc (l1 ++ m :: l2) cnt = (acc ++ (l1 ++ l2), cnt - 1) by
    simpa [scanPop] using haux []
  induction l1 with
  | nil =>
    intro acc
    simp only [List.nil_append]
    cases l2 with
    | nil => rw [scanPopAux.eq_2]; simp [hm]
    | cons m2 rest2 =>
      rw [scanPopAux.eq_3]
      simp only [hm, if_true]
      rw [scanPopAux_no_match uid rest2 (acc ++ [m2]) (cnt - 1)
        (fun x hx => h2 x (List.mem_cons_of_mem _ hx))]
      simp
  | cons x l1' ih =>
    intro acc
    rw [List.cons_append,
      scanPopAux_cons_of_ne uid acc x (l1' ++ m :: l2) cnt (h1 x (List.mem_cons_self ..))]
    rw [ih (fun y hy => h1 y (List.mem_cons_of_mem _ hy)) (acc ++ [x])]
    simp

/-- The leave scan finds the caller's unscored entry and removes it, leaving
the result count untouched. -/
theorem leaveScan_unique_noscore (uid : Nat) (l1 l2 : List Member) (m : Member)
    (hm : (m.id == uid) = true) (hs : m.score = none)
    (h1 : ∀ x ∈ l1, (x.id == uid) = false) :
    leaveScan uid (l1 ++ m :: l2) = some (l1 ++ l2, 0) := by
  induction l1 with
  | nil => simp [leaveScan, hm, hs]
  | cons x l1' ih =>
    rw [List.cons_append, leaveScan]
    simp only [h1 x (List.mem_cons_self ..), Bool.false_eq_true, if_false]
    rw [ih (fun y hy => h1 y (List.mem_cons_of_mem _ hy))]
    rfl

/-- Appending a member and writing the counter back, then pointing the user
at the room (`joinFinish`), leaves the looked-up row with exactly the new
roster and counter. -/
theorem findRoom_joinFinish (db : DB) (u : SafeUser) (rid : Nat) (dif : LiveDifficulty)
    (p : List Member × Int) :
    findRoom (joinFinish db u rid dif p).1 rid
      = (findRoom db rid).map (fun r =>
          { r with
            j_usr_cnt := p.2,
            users := p.1 ++ [⟨u.id, u.name, u.leader_card_id, dif.val, none, none⟩] }) := by
  show findRoom (setUserRoom (updateRoom db rid _) u.id rid) rid = _
  rw [findRoom_setUserRoom, findRoom_updateRoom db rid]
  exact fun r => rfl

/-! ## Claim-level theorems -/

/-- Claim C1 (code bug): the claim says room status only moves forward along
Waiting, Playing, Dissolved and that `wait` force-triggers session start only
when the status is still pre-play. The code's `_room_wait` triggers
`_room_start` on any stale room with no status check at all, so polling a
stale *Dissolved* room (status 3) rewrites its stored status back to
Playing (2) — a backwards transition. This theorem evaluates the code at
that failing input. -/
theorem room_wait_revives_dissolved_room :
    (findRoom dbC1 1).map Room.status = some 3 ∧
    (room_wait dbC1 300 tokC1 1).map (fun x => (findRoom x.1 1).map Room.status)
      = Except.ok (some 2) :=
  ⟨rfl, rfl⟩

/-- Claim C2 (code bug): the claim says `completed_result_count` never
exceeds `joined_user_count`, in particular under repeated `room_end` calls
by the same member. The code's `_room_end` increments `r_res_cnt` on every
call without checking whether the caller already submitted: starting from a
one-member room with counters in range (`r_res_cnt = 0 ≤ j_usr_cnt = 1`),
two submissions by that member leave `r_res_cnt = 2 > j_usr_cnt = 1`. -/
theorem room_end_resubmission_overcounts :
    (findRoom dbC2 1).map (fun r => (r.r_res_cnt, r.j_usr_cnt)) = some (0, 1) ∧
    ((room_end dbC2 tokC2 1 [1, 2, 3, 4, 5] 100).bind
        (fun d => room_end d tokC2 1 [1, 2, 3, 4, 5] 100)).map
      (fun d => (findRoom d 1).map (fun r => (r.r_res_cnt, r.j_usr_cnt)))
      = Except.ok (some (2, 1)) :=
  ⟨rfl, rfl⟩

/-- Claim C3 (code bug): the claim says `room_leave` by a non-member changes
nothing for every room. The code's `_room_leave` tests
`row.j_usr_cnt - 1 == 0` and deletes the room *before* it checks whether the
caller is a member, so a valid non-member calling leave on a one-member room
deletes the room. Here user 2 is not in room 1's roster (which is `[1]`),
yet after their leave the room is gone. -/
theorem room_leave_nonmember_deletes_singleton_room :
    (findRoom dbC3 1).map (fun r => r.users.map Member.id) = some [1] ∧
    (room_leave dbC3 tokC3b 1).map (fun d => findRoom d 1) = Except.ok none :=
  ⟨rfl, rfl⟩

/-- Claim C4 counterexample: the claim says a rejoin preserves the caller's
roster position and already-submitted result fields. In the code the rejoin
pops the caller's entry and appends a brand-new entry: user 1 starts as the
*first* roster entry with `score = some 50`, and after rejoining ends as the
*last* entry with `score = none`. -/
theorem room_join_rejoin_moves_and_drops_result :
    (findRoom dbC4 1).map Room.users = some [memberC4a, memberC4b] ∧
    memberC4a.score = some 50 ∧
    (room_join dbC4 tokC4 1 LiveDifficulty.hard).map
      (fun p => (p.2, (findRoom p.1 1).map (fun r => (r.j_usr_cnt, r.users))))
      = Except.ok (JoinRoomResult.Ok, some (2, [memberC4b, ⟨1, "a", 10, 2, none, none⟩])) :=
  ⟨rfl, rfl, rfl⟩

/-- Claim C4 as amended: for a member whose current room equals the target
room and who appears exactly once in the roster, rejoin returns Ok, leaves
the occupancy unchanged and all other members' entries untouched, but
re-appends the caller at the *end* of the roster as a fresh entry carrying
the new difficulty and no result fields. -/
theorem room_join_rejoin_amended (db : DB) (u : SafeUser) (rid : Nat) (dif : LiveDifficulty)
    (row : Room) (l1 l2 : List Member) (m : Member)
    (hfind : findRoom db rid = some row)
    (husers : row.users = l1 ++ m :: l2)
    (hm : (m.id == u.id) = true)
    (h1 : ∀ x ∈ l1, (x.id == u.id) = false)
    (h2 : ∀ x ∈ l2, (x.id == u.id) = false) :
    (room_join_db db u rid (some rid) dif).2 = JoinRoomResult.Ok ∧
    (findRoom (room_join_db db u rid (some rid) dif).1 rid).map Room.j_usr_cnt
      = some row.j_usr_cnt ∧
    (findRoom (room_join_db db u rid (some rid) dif).1 rid).map Room.users
      = some (l1 ++ l2 ++ [⟨u.id, u.name, u.leader_card_id, dif.val, none, none⟩]) := by
  have hjoin : room_join_db db u rid (some rid) dif
      = joinFinish db u rid dif (l1 ++ l2, row.j_usr_cnt + 1 - 1) := by
    simp only [room_join_db, hfind, if_true]
    rw [husers, scanPop_unique u.id l1 l2 m (row.j_usr_cnt + 1) hm h1 h2]
  refine ⟨by rw [hjoin]; rfl, ?_, ?_⟩ <;>
  · rw [hjoin, findRoom_joinFinish, hfind]
    simp

/-- Witness for the amended claim C4, at the concrete two-member room where
the rejoining caller had submitted a result. -/
theorem room_join_rejoin_amended_witness :
    findRoom dbC4 1 = some roomC4 ∧
    roomC4.users = [] ++ memberC4a :: [memberC4b] ∧
    (memberC4a.id == safeC4.id) = true ∧
    ((room_join_db dbC4 safeC4 1 (some 1) LiveDifficulty.hard).2 = JoinRoomResult.Ok ∧
     (findRoom (room_join_db dbC4 safeC4 1 (some 1) LiveDifficulty.hard).1 1).map Room.j_usr_cnt
       = some roomC4.j_usr_cnt ∧
     (findRoom (room_join_db dbC4 safeC4 1 (some 1) LiveDifficulty.hard).1 1).map Room.users
       = some ([] ++ [memberC4b] ++
           [⟨safeC4.id, safeC4.name, safeC4.leader_card_id, LiveDifficulty.hard.val, none, none⟩])) :=
  ⟨rfl, rfl, by decide,
    room_join_rejoin_amended dbC4 safeC4 1 LiveDifficulty.hard roomC4 [] [memberC4b] memberC4a
      rfl rfl (by decide) (by decide) (by decide)⟩

/-- Claim C5 counterexample: the claim says that when the host leaves a room
with at least two members, the resulting `host_user_id` always differs from
the leaver's id, including when the leaving host had already submitted a
result. In the code a member with a stored score is *not* removed from the
roster on leave, and the new host is `users[0]` of the post-scan roster: a
scored host sitting first in the roster therefore remains recorded as host
after leaving. -/
theorem room_leave_scored_host_keeps_host :
    (findRoom dbC5 1).map Room.hst_id = some 1 ∧
    (room_leave dbC5 tokC5 1).map
      (fun d => (findRoom d 1).map (fun r => (r.hst_id, r.users.map Member.id)))
      = Except.ok (some (1, [1, 2])) :=
  ⟨rfl, rfl⟩

/-- Claim C5 as amended: when the leaving host had *not* yet submitted a
result (and appears exactly once in the roster), the host role is
reassigned to the first remaining roster member, which is a member of the
post-leave roster different from the leaver. -/
theorem room_leave_host_reassign_amended (db : DB) (u : SafeUser) (rid : Nat)
    (row : Room) (l1 l2 : List Member) (m m0 : Member)
    (hfind : findRoom db rid = some row)
    (hcnt : 2 ≤ row.j_usr_cnt)
    (hhost : row.hst_id = u.id)
    (husers : row.users = l1 ++ m :: l2)
    (hm : (m.id == u.id) = true) (hs : m.score = none)
    (h1 : ∀ x ∈ l1, (x.id == u.id) = false)
    (h2 : ∀ x ∈ l2, (x.id == u.id) = false)
    (hhead : (l1 ++ l2).head? = some m0) :
    (room_leave_db db u rid).map (fun d => (findRoom d rid).map (fun r => (r.hst_id, r.users)))
      = Except.ok (some (m0.id, l1 ++ l2)) ∧
    m0.id ≠ u.id ∧ m0 ∈ l1 ++ l2 := by
  have hm0mem : m0 ∈ l1 ++ l2 := List.mem_of_mem_head? hhead
  have hm0 : m0.id ≠ u.id := by
    rcases List.mem_append.mp hm0mem with h | h
    · simpa using h1 m0 h
    · simpa using h2 m0 h
  refine ⟨?_, hm0, hm0mem⟩
  simp only [room_leave_db, hfind]
  rw [if_neg (show ¬(row.j_usr_cnt - 1 = 0) by omega), husers]
  simp only [leaveScan_unique_noscore u.id l1 l2 m hm hs h1, hhost, if_true, eq_self_iff_true, hhead]
  simp only [Except.map]
  rw [findRoom_updateRoom db rid]
  · rw [hfind]; simp
  · exact fun r => rfl

/-- Witness for the amended claim C5, at the concrete two-member room whose
host has no stored result and sits first in the roster. -/
theorem room_leave_host_reassign_amended_witness :
    findRoom dbC5w 1 = some roomC5w ∧
    (2 : Int) ≤ roomC5w.j_usr_cnt ∧
    roomC5w.hst_id = safeC5.id ∧
    roomC5w.users = [] ++ memberC5c :: [memberC5b] ∧
    (memberC5c.id == safeC5.id) = true ∧
    memberC5c.score = none ∧
    (([] ++ [memberC5b] : List Member).head? = some memberC5b) ∧
    ((room_leave_db dbC5w safeC5 1).map
        (fun d => (findRoom d 1).map (fun r => (r.hst_id, r.users)))
      = Except.ok (some (memberC5b.id, [] ++ [memberC5b])) ∧
     memberC5b.id ≠ safeC5.id ∧ memberC5b ∈ ([] ++ [memberC5b] : List Member)) :=
  ⟨rfl, by decide, rfl, rfl, by decide, rfl, rfl,
    room_leave_host_reassign_amended dbC5w safeC5 1 roomC5w [] [memberC5b] memberC5c memberC5b
      rfl (by decide) rfl rfl (by decide) rfl (by decide) (by decide) rfl⟩

/-- Claim C6 counterexample: the claim says joining a room whose occupancy
equals its capacity returns RoomFull for *every* caller, including one whose
current room equals the target. In the code the rejoin special case is
tested *before* the capacity check, so a member of the full room who joins
it again gets Ok, not RoomFull. -/
theorem room_join_full_rejoin_returns_ok :
    (findRoom dbC6 1).map (fun r => (r.j_usr_cnt, r.m_usr_cnt)) = some (2, 2) ∧
    (room_join dbC6 tokC6 1 LiveDifficulty.normal).map (fun p => p.2)
      = Except.ok JoinRoomResult.Ok :=
  ⟨rfl, rfl⟩

/-- Claim C6 as amended: for every caller whose current room does *not*
equal the target room, joining a room with occupancy equal to capacity
returns RoomFull and leaves the whole database state unchanged. -/
theorem room_join_full_amended (db : DB) (u : SafeUser) (rid : Nat)
    (old_room_id : Option Nat) (dif : LiveDifficulty) (row : Room)
    (hfind : findRoom db rid = some row)
    (hfull : row.j_usr_cnt = row.m_usr_cnt)
    (hold : old_room_id ≠ some rid) :
    room_join_db db u rid old_room_id dif = (db, JoinRoomResult.RoomFull) := by
  unfold room_join_db
  rw [hfind]
  simp [hold, hfull]

/-- Witness for the amended claim C6, at the concrete full room and a caller
from outside it. -/
theorem room_join_full_amended_witness :
    findRoom dbC6 1 = some roomC6 ∧ roomC6.j_usr_cnt = roomC6.m_usr_cnt ∧
    (none : Option Nat) ≠ some 1 ∧
    room_join_db dbC6 safeC6c 1 none LiveDifficulty.normal = (dbC6, JoinRoomResult.RoomFull) :=
  ⟨rfl, rfl, by decide,
    room_join_full_amended dbC6 safeC6c 1 none LiveDifficulty.normal roomC6 rfl rfl (by decide)⟩

/-- Claim C7 (confirmed): for an existing room whose play-start time is
recorded, `room_result` returns the empty list exactly when the completed
result count is below the occupancy and less than five minutes have passed
since play start; otherwise it returns one `ResultUser` per roster member
in roster order, with `[-1,-1,-1,-1,-1]` and `-1` in place of absent result
fields and the stored values otherwise. -/
theorem room_result_spec (db : DB) (now : Int) (rid : Nat) (row : Room) (tb : Int)
    (hfind : findRoom db rid = some row) (htb : row.time_begin = some tb) :
    room_result db now rid = Except.ok
      (if row.r_res_cnt < row.j_usr_cnt ∧ now - tb < staleLimit then ([] : List ResultUser)
       else row.users.map (fun m =>
         ⟨m.id, m.judge_count_list.getD [-1, -1, -1, -1, -1], m.score.getD (-1)⟩)) := by
  simp only [room_result, room_result_db, hfind, htb, staleLimit]
  split_ifs with h1 h2 h3 h4 <;> first | rfl | omega

/-- Witness for claim C7 at a playing room with one of two results in and no
timeout elapsed. -/
theorem room_result_spec_witness :
    findRoom dbC7 1 = some roomC7 ∧ roomC7.time_begin = some 0 ∧
    room_result dbC7 100 1 = Except.ok
      (if roomC7.r_res_cnt < roomC7.j_usr_cnt ∧ (100 : Int) - 0 < staleLimit
       then ([] : List ResultUser)
       else roomC7.users.map (fun m =>
         ⟨m.id, m.judge_count_list.getD [-1, -1, -1, -1, -1], m.score.getD (-1)⟩)) :=
  ⟨rfl, rfl, room_result_spec dbC7 100 1 roomC7 0 rfl rfl⟩

/-- Claim C8 (code bug): the claim says every identity-requiring operation
raises InvalidToken on an unknown token and performs no mutation. In the
source `_get_user_by_token` returns a bare `None` on a lookup miss, so every
caller crashes with `TypeError` (`None[0]` or unpacking `None`) *before*
reaching its `if user is None: raise InvalidToken` guard: the InvalidToken
branch is dead code. No mutation happens either way — the failure occurs
before any room access. This theorem evaluates every operation at an
unknown token. -/
theorem unknown_token_raises_type_error :
    get_user_by_token dbC8 tokC8 = none ∧
    create_room dbC8 0 4 tokC8 5 LiveDifficulty.normal = Except.error Err.typeError ∧
    room_join dbC8 tokC8 1 LiveDifficulty.normal = Except.error Err.typeError ∧
    room_wait dbC8 0 tokC8 1 = Except.error Err.typeError ∧
    room_start dbC8 0 tokC8 1 = Except.error Err.typeError ∧
    room_end dbC8 tokC8 1 [0, 0, 0, 0, 0] 0 = Except.error Err.typeError ∧
    room_leave dbC8 tokC8 1 = Except.error Err.typeError :=
  ⟨rfl, rfl, rfl, rfl, rfl, rfl, rfl⟩

/-- Claim C9 (confirmed): with a resolvable token and a missing room,
`room_leave`, `room_end` and `room_result` raise (the single-row fetch
fails with NoResultFound), while `room_wait` returns `(Dissolution, [])`
(status value 3) and `room_join` returns OtherError, both without touching
the state. -/
theorem missing_room_outcomes (db : DB) (now : Int) (token : String) (rid : Nat)
    (u : SafeUser) (old_room_id : Option Nat) (dif : LiveDifficulty)
    (judge_count_list : List Int) (score : Int)
    (huser : get_user_by_token db token = some (u, old_room_id))
    (hroom : findRoom db rid = none) :
    room_leave db token rid = Except.error Err.noResultFound ∧
    room_end db token rid judge_count_list score = Except.error Err.noResultFound ∧
    room_result db now rid = Except.error Err.noResultFound ∧
    room_wait db now token rid = Except.ok (db, 3, []) ∧
    room_join db token rid dif = Except.ok (db, JoinRoomResult.OtherError) := by
  refine ⟨?_, ?_, ?_, ?_, ?_⟩ <;>
    simp [room_leave, room_leave_db, room_end, room_end_db, room_result, room_result_db,
      room_wait, room_wait_db, room_join, room_join_db, huser, hroom]

/-- Witness for claim C9 at a database with one registered user and no
rooms. -/
theorem missing_room_outcomes_witness :
    get_user_by_token dbC9 tokC9 = some (safeC9, none) ∧
    findRoom dbC9 7 = none ∧
    (room_leave dbC9 tokC9 7 = Except.error Err.noResultFound ∧
     room_end dbC9 tokC9 7 [0, 0, 0, 0, 0] 0 = Except.error Err.noResultFound ∧
     room_result dbC9 0 7 = Except.error Err.noResultFound ∧
     room_wait dbC9 0 tokC9 7 = Except.ok (dbC9, 3, []) ∧
     room_join dbC9 tokC9 7 LiveDifficulty.normal = Except.ok (dbC9, JoinRoomResult.OtherError)) :=
  ⟨rfl, rfl,
    missing_room_outcomes dbC9 0 tokC9 7 safeC9 none
      LiveDifficulty.normal [0, 0, 0, 0, 0] 0 rfl rfl⟩

/-- Claim C10 (confirmed): `room_leave` never writes to the user table on
*any* success path — including the sole-member departure that deletes the
room — so the leaver's stored `room_id` still names the room they left; a
subsequent `room_join` by a user whose current-room reference equals that
room id takes the rejoin special case rather than a fresh join: it returns
Ok whenever the room still exists (bypassing every fresh-join check), and
OtherError exactly when the room is gone. -/
theorem room_leave_keeps_user_room (db : DB) (token : String) (rid : Nat) (db2 : DB)
    (u2 : SafeUser) (dif : LiveDifficulty)
    (h : room_leave db token rid = Except.ok db2) :
    db2.users = db.users ∧
    (room_join_db db2 u2 rid (some rid) dif).2
      = (if (findRoom db2 rid).isSome then JoinRoomResult.Ok else JoinRoomResult.OtherError) := by
  constructor
  · unfold room_leave room_leave_db at h
    simp only [] at h
    repeat' split at h
    all_goals first
      | exact Except.noConfusion h
      | (injection h with h2; subst h2; rfl)
  · cases hfr : findRoom db2 rid with
    | none => simp only [room_join_db, hfr, Option.isSome_none, Bool.false_eq_true, if_false]
    | some row =>
      simp only [room_join_db, hfr, Option.isSome_some, if_true]
      rfl

/-- Witness for claim C10, exercising both cases: user 2 leaves the
two-member room (room survives, rejoin-path join returns Ok) and leaves a
room where they were the sole member (room deleted, rejoin-path join
returns OtherError); in both cases the user table is untouched. -/
theorem room_leave_keeps_user_room_witness :
    (room_leave dbC10 tokC10 1 = Except.ok db2C10 ∧
     (db2C10.users = dbC10.users ∧
      (room_join_db db2C10 safeC10b 1 (some 1) LiveDifficulty.normal).2
        = (if (findRoom db2C10 1).isSome then JoinRoomResult.Ok else JoinRoomResult.OtherError))) ∧
    (room_leave dbC10s tokC10 1 = Except.ok db2C10s ∧
     (db2C10s.users = dbC10s.users ∧
      (room_join_db db2C10s safeC10b 1 (some 1) LiveDifficulty.normal).2
        = (if (findRoom db2C10s 1).isSome then JoinRoomResult.Ok else JoinRoomResult.OtherError))) :=
  ⟨⟨rfl, room_leave_keeps_user_room dbC10 tokC10 1 db2C10 safeC10b LiveDifficulty.normal rfl⟩,
   ⟨rfl, room_leave_keeps_user_room dbC10s tokC10 1 db2C10s safeC10b LiveDifficulty.normal rfl⟩⟩

end GameServer
